import Mathlib

/-!
Verification of the WatchDog incident-detection workers.

The definitions below are a shallow embedding of the three Cloudflare
workers of the repository:

* `src/Server/worker.js` — the detection endpoint: it parses the uploaded
  frame and motion data, runs the two external classifiers, fuses the
  results with `calculateThreatScore` and answers with a JSON body.
* the `/execute-sql` worker — forwards a SQL statement with bindings to
  the D1 database.
* the `/get-presigned-url` worker — answers a presigned R2 upload URL
  for the key `incidents/<incidentId>.mp4`, valid for 600 seconds.

Numbers are embedded as exact rationals (`ℚ`); JavaScript objects become
structures, absent fields become `Option`, and the outcome of an awaited
external call becomes an `Except` value supplied as an input of the
handler.
-/

namespace WatchDog

/-- One entry of `objectDetection.objects` as read by `calculateThreatScore`:
the worker accesses `obj.label` (possibly absent, hence `Option`) and
`obj.confidence`. -/
structure DetectedObject where
  label : Option String
  confidence : ℚ
deriving DecidableEq

/-- The object-detection result consumed by the worker.  The code guards the
iteration with `objectDetection.objects?.forEach`, so the `objects` field
itself may be absent. -/
structure ObjectDetection where
  objects : Option (List DetectedObject)
deriving DecidableEq

/-- The safety-classifier result: `safetyCheck.violence` and
`safetyCheck.weapons`. -/
structure SafetyCheck where
  violence : ℚ
  weapons : ℚ
deriving DecidableEq

/-- The parsed `motion_data` form field; the scorer only reads
`motionData.area`. -/
structure MotionData where
  area : ℚ
deriving DecidableEq

/-- JavaScript `String.prototype.toLowerCase` on the ASCII labels used by the
worker: lower-case every character. -/
def jsToLowerCase (s : String) : String :=
  ⟨s.data.map Char.toLower⟩

/-- The `suspiciousObjects` literal of `calculateThreatScore`:
`knife ↦ 0.3, gun ↦ 0.4, weapon ↦ 0.4, mask ↦ 0.2, person ↦ 0.1`; any other
key reads as `undefined` (`none`). -/
def suspiciousObjects (label : String) : Option ℚ :=
  if label = "knife" then some (3/10)
  else if label = "gun" then some (2/5)
  else if label = "weapon" then some (2/5)
  else if label = "mask" then some (1/5)
  else if label = "person" then some (1/10)
  else none

/-- The body of the `forEach` over detected objects: lower-case the label,
look it up in `suspiciousObjects`, and if the weight is truthy (defined and
non-zero) add `weight * obj.confidence`.  This is the amount the object adds
to the running score. -/
def objectContribution (obj : DetectedObject) : ℚ :=
  match obj.label with
  | none => 0
  | some l =>
    match suspiciousObjects (jsToLowerCase l) with
    | none => 0
    | some w => if w = 0 then 0 else w * obj.confidence

/-- The accumulated score of `calculateThreatScore` just before the final
`Math.min(score, 1.0)`: start from `0`, add the motion score
`Math.min(motionData.area / 15000, 0.4)`, fold the object contributions, then
apply the two safety steps (`+0.3` if `violence > 0.6`, `+0.2` if
`weapons > 0.5`). -/
def rawThreatScore (objectDetection : ObjectDetection) (safetyCheck : SafetyCheck)
    (motionData : MotionData) : ℚ :=
  let motionScore := min (motionData.area / 15000) (2/5 : ℚ)
  let withMotion := 0 + motionScore
  let withObjects :=
    match objectDetection.objects with
    | none => withMotion
    | some objs => objs.foldl (fun s obj => s + objectContribution obj) withMotion
  let withViolence := if safetyCheck.violence > 3/5 then withObjects + 3/10 else withObjects
  if safetyCheck.weapons > 1/2 then withViolence + 1/5 else withViolence

/-- `calculateThreatScore` of `src/Server/worker.js`: the accumulated score,
capped by `Math.min(score, 1.0)`. -/
def calculateThreatScore (objectDetection : ObjectDetection) (safetyCheck : SafetyCheck)
    (motionData : MotionData) : ℚ :=
  min (rawThreatScore objectDetection safetyCheck motionData) 1

/-- The motion component named by the specification:
`min(area / AREA_NORM, MOTION_CAP)` with `AREA_NORM = 15000`,
`MOTION_CAP = 0.4`. -/
def motionComponent (motionData : MotionData) : ℚ :=
  min (motionData.area / 15000) (2/5 : ℚ)

/-- The object component named by the specification: the total contribution
of the detected objects (zero when the `objects` field is absent). -/
def objectComponent (objectDetection : ObjectDetection) : ℚ :=
  match objectDetection.objects with
  | none => 0
  | some objs => (objs.map objectContribution).sum

/-- The safety component named by the specification: `+0.3` when
`violence > 0.6` plus `+0.2` when `weapons > 0.5`. -/
def safetyComponent (safetyCheck : SafetyCheck) : ℚ :=
  (if safetyCheck.violence > 3/5 then (3/10 : ℚ) else 0)
    + (if safetyCheck.weapons > 1/2 then (1/5 : ℚ) else 0)

/-- The weight the specification assigns to a label: the configured mapping
applied to the lower-cased label, zero for unknown labels. -/
def labelWeight (label : Option String) : ℚ :=
  match label with
  | none => 0
  | some l => (suspiciousObjects (jsToLowerCase l)).getD 0

/-- `clamp(x, 0, 1)` as used by the specification's invariant. -/
def clamp01 (x : ℚ) : ℚ :=
  max 0 (min x 1)

/-! ### The detection endpoint of `src/Server/worker.js` -/

/-- The request methods distinguished by the workers. -/
inductive JsMethod where
  | OPTIONS
  | POST
  | GET
  | PUT
deriving DecidableEq

/-- The inputs of the detection endpoint's `fetch` handler, with each awaited
external call (the `JSON.parse` of `motion_data` and the two `ai.run`
classifiers) represented by its outcome. -/
structure DetectRequest where
  method : JsMethod
  imagePresent : Bool
  motionDataPresent : Bool
  motionParse : Except String MotionData
  objectResult : Except String ObjectDetection
  safetyResult : Except String SafetyCheck

/-- The JSON body (plus status) answered by the detection endpoint; absent
JSON fields are `none`. -/
structure DetectResponse where
  status : Nat
  errMsg : Option String
  suspicious : Option Bool
  threat_score : Option ℚ
  detections : Option ObjectDetection
  requires_attention : Option Bool
deriving DecidableEq

/-- `Promise.all` over the two classifier calls: succeeds with the pair when
both succeed, otherwise rejects with (one of) the errors, which the `catch`
block of the handler will receive. -/
def promiseAll2 (a : Except String ObjectDetection) (b : Except String SafetyCheck) :
    Except String (ObjectDetection × SafetyCheck) :=
  match a, b with
  | .ok x, .ok y => .ok (x, y)
  | .error e, _ => .error e
  | .ok _, .error e => .error e

/-- The response built by the `catch` block:
`corsResponse({error, suspicious: false, requires_attention: false}, 500)`. -/
def errorResponse (msg : String) : DetectResponse :=
  { status := 500, errMsg := some msg, suspicious := some false,
    threat_score := none, detections := none, requires_attention := some false }

/-- The `fetch` handler of `src/Server/worker.js`: answer `OPTIONS`
pre-flights, reject non-`POST` methods with 405, reject a missing image or
missing motion data with 400, and otherwise parse the motion data, run the
two classifiers, and answer 200 with the fused threat score — any thrown
error is caught and becomes a 500 `errorResponse`. -/
def workerFetch (req : DetectRequest) : DetectResponse :=
  if req.method = .OPTIONS then
    { status := 200, errMsg := none, suspicious := none,
      threat_score := none, detections := none, requires_attention := none }
  else if req.method ≠ .POST then
    { status := 405, errMsg := some "Method not allowed", suspicious := none,
      threat_score := none, detections := none, requires_attention := none }
  else if !req.imagePresent || !req.motionDataPresent then
    { status := 400, errMsg := some "Missing required data",
      suspicious := some false, threat_score := none, detections := none,
      requires_attention := some false }
  else
    match req.motionParse with
    | .error e => errorResponse e
    | .ok motionData =>
      match promiseAll2 req.objectResult req.safetyResult with
      | .error e => errorResponse e
      | .ok (objectDetection, safetyCheck) =>
        let threatScore := calculateThreatScore objectDetection safetyCheck motionData
        { status := 200, errMsg := none,
          suspicious := some (decide (threatScore > 1/2)),
          threat_score := some threatScore,
          detections := some objectDetection,
          requires_attention := some false }

/-! ### The `/execute-sql` worker (`src/unnamed/part_000`) -/

/-- JavaScript falsiness of an optional string field: `undefined` and the
empty string are falsy. -/
def jsFalsyStr (s : Option String) : Bool :=
  match s with
  | none => true
  | some v => v = ""

/-- One entry of the `bindings` array; the worker reads `b.value`. -/
structure SqlBinding where
  value : String
deriving DecidableEq

/-- The parsed JSON body of an `/execute-sql` request; either field may be
absent from the JSON. -/
structure SqlBody where
  sql : Option String
  bindings : Option (List SqlBinding)

/-- A plain-text worker response: status plus body text. -/
structure TextResponse where
  status : Nat
  text : String
deriving DecidableEq

/-- The `fetch` handler of the `/execute-sql` worker, parameterised by the D1
database `env.DB` (modelled as a function from the SQL text and bound values
to the result, or a thrown error).  A request whose JSON fails to parse
(`body = none`) throws inside the `try`, as does `bindings.map` when the
`bindings` field is absent; both are caught and answered with status 500.
The exact runtime `error.message` texts are abstracted. -/
def handleExecuteSql (db : String → List String → Except String String)
    (method : JsMethod) (path : String) (body : Option SqlBody) : TextResponse :=
  if method = .POST ∧ path = "/execute-sql" then
    match body with
    | none => { status := 500, text := "Error: invalid JSON body" }
    | some b =>
      if jsFalsyStr b.sql then { status := 400, text := "SQL query is required" }
      else
        match b.bindings with
        | none => { status := 500, text := "Error: bindings is undefined" }
        | some bs =>
          match db (b.sql.getD "") (bs.map (fun x => x.value)) with
          | .ok r => { status := 200, text := r }
          | .error e => { status := 500, text := "Error: " ++ e }
  else { status := 404, text := "Not Found" }

/-! ### The `/get-presigned-url` worker (`src/unnamed/part_001`) -/

/-- The parsed JSON body of a `/get-presigned-url` request. -/
structure PresignBody where
  incidentId : Option String
deriving DecidableEq

/-- An abstract presigned URL: the data `getSignedUrl` is given — bucket,
object key and expiry in seconds. -/
structure SignedUrl where
  bucket : String
  key : String
  expiresIn : Nat
deriving DecidableEq

/-- Model of `getSignedUrl(s3Client, PutObjectCommand(bucket, key),
expiresIn)`: the returned URL is determined by bucket, key and expiry. -/
def getSignedUrl (bucket key : String) (expiresIn : Nat) : SignedUrl :=
  { bucket := bucket, key := key, expiresIn := expiresIn }

/-- The response of the `/get-presigned-url` worker: either the JSON body
with `uploadUrl` and `key`, or a plain error text. -/
structure PresignResponse where
  status : Nat
  uploadUrl : Option SignedUrl
  key : Option String
  text : Option String
deriving DecidableEq

/-- The `fetch` handler of the `/get-presigned-url` worker: on
`POST /get-presigned-url`, a body that failed to parse (`none`) or whose
`incidentId` is falsy is answered with 400; otherwise the worker builds the
key `incidents/<incidentId>.mp4`, presigns a put to the
`watchdog-incident-reports` bucket expiring in 600 seconds, and answers 200
with `uploadUrl` and `key`. -/
def handlePresign (method : JsMethod) (path : String) (body : Option PresignBody) :
    PresignResponse :=
  if method = .POST ∧ path = "/get-presigned-url" then
    if body = none || jsFalsyStr ((body.getD { incidentId := none }).incidentId) then
      { status := 400, uploadUrl := none, key := none,
        text := some "Missing incidentId in JSON body" }
    else
      let key := "incidents/" ++ ((body.getD { incidentId := none }).incidentId.getD "") ++ ".mp4"
      { status := 200,
        uploadUrl := some (getSignedUrl "watchdog-incident-reports" key 600),
        key := some key, text := none }
  else { status := 404, uploadUrl := none, key := none, text := some "Not Found" }

/-! ### The metadata store capability -/

/-- The incident metadata row persisted per incident (the fields the
dashboard reads back: upload date, video path, face crop references). -/
structure IncidentMeta where
  uploadDate : String
  videoPath : String
  faces : List String
deriving DecidableEq

/-- Modelled from the spec: the metadata-store capability — "accepts an
upsert of incident metadata keyed by incident id".  The client that issues
the actual upsert statement is not among the available sources; the
`/execute-sql` worker only forwards whatever SQL it is given.  The database
is a list of rows keyed by incident id; an upsert replaces the rows already
carrying the id, or appends a fresh row when the id is new. -/
def upsertIncident (db : List (String × IncidentMeta)) (id : String)
    (meta : IncidentMeta) : List (String × IncidentMeta) :=
  if db.any (fun e => e.1 = id) then
    db.map (fun e => if e.1 = id then (id, meta) else e)
  else db ++ [(id, meta)]

/-! ### Helper lemmas about the threat scorer -/

theorem foldl_objectContribution (a : ℚ) (l : List DetectedObject) :
    l.foldl (fun s obj => s + objectContribution obj) a
      = a + (l.map objectContribution).sum := by
  induction l generalizing a with
  | nil => simp
  | cons x xs ih =>
      simp only [List.foldl_cons, List.map_cons, List.sum_cons, ih]
      ring

theorem rawThreatScore_eq (o : ObjectDetection) (s : SafetyCheck) (m : MotionData) :
    rawThreatScore o s m = motionComponent m + objectComponent o + safetyComponent s := by
  unfold rawThreatScore motionComponent objectComponent safetyComponent
  cases o.objects with
  | none => split_ifs <;> ring
  | some objs =>
      simp only [foldl_objectContribution]
      split_ifs <;> ring

theorem calculateThreatScore_eq (o : ObjectDetection) (s : SafetyCheck) (m : MotionData) :
    calculateThreatScore o s m
      = min (motionComponent m + objectComponent o + safetyComponent s) 1 := by
  unfold calculateThreatScore
  rw [rawThreatScore_eq]

theorem suspiciousObjects_getD_nonneg (l : String) : 0 ≤ (suspiciousObjects l).getD 0 := by
  unfold suspiciousObjects
  split_ifs <;> norm_num

theorem objectContribution_nonneg (obj : DetectedObject) (h : 0 ≤ obj.confidence) :
    0 ≤ objectContribution obj := by
  cases hl : obj.label with
  | none => simp [objectContribution, hl]
  | some l =>
      cases hw : suspiciousObjects (jsToLowerCase l) with
      | none => simp [objectContribution, hl, hw]
      | some w =>
          have hwn : 0 ≤ w := by
            have h2 := suspiciousObjects_getD_nonneg (jsToLowerCase l)
            rw [hw] at h2
            simpa using h2
          by_cases h0 : w = 0
          · simp [objectContribution, hl, hw, h0]
          · simp only [objectContribution, hl, hw, if_neg h0]
            exact mul_nonneg hwn h

theorem objectComponent_nonneg (o : ObjectDetection)
    (h : ∀ obj ∈ o.objects.getD [], 0 ≤ obj.confidence) : 0 ≤ objectComponent o := by
  unfold objectComponent
  cases ho : o.objects with
  | none => exact le_refl 0
  | some objs =>
      apply List.sum_nonneg
      intro x hx
      rw [List.mem_map] at hx
      obtain ⟨obj, hobj, rfl⟩ := hx
      have h' : ∀ obj ∈ objs, 0 ≤ obj.confidence := by simpa [ho] using h
      exact objectContribution_nonneg obj (h' obj hobj)

theorem motionComponent_nonneg (m : MotionData) (h : 0 ≤ m.area) :
    0 ≤ motionComponent m :=
  le_min (div_nonneg h (by norm_num)) (by norm_num)

theorem motionComponent_le_cap (m : MotionData) : motionComponent m ≤ 2/5 :=
  min_le_right _ _

theorem safetyComponent_nonneg (s : SafetyCheck) : 0 ≤ safetyComponent s := by
  unfold safetyComponent
  split_ifs <;> norm_num

theorem safetyComponent_le_half (s : SafetyCheck) : safetyComponent s ≤ 1/2 := by
  unfold safetyComponent
  split_ifs <;> norm_num

theorem objectContribution_eq_weight (obj : DetectedObject) :
    objectContribution obj = labelWeight obj.label * obj.confidence := by
  cases hl : obj.label with
  | none => simp [objectContribution, labelWeight, hl]
  | some l =>
      cases hw : suspiciousObjects (jsToLowerCase l) with
      | none => simp [objectContribution, labelWeight, hl, hw]
      | some w =>
          by_cases h0 : w = 0 <;> simp [objectContribution, labelWeight, hl, hw, h0]

/-! ### The claims -/

/-- C1 counterexample: the worker only caps the score from above
(`Math.min(score, 1.0)`); with a negative `motion_data.area` the returned
score is `-2`, below the interval `[0, 1]`, while
`clamp(motion + object + safety, 0, 1)` would be `0`. -/
theorem threatScore_negative_counterexample :
    calculateThreatScore ⟨some []⟩ ⟨0, 0⟩ ⟨-30000⟩ = -2
    ∧ clamp01 (motionComponent ⟨-30000⟩ + objectComponent ⟨some []⟩ + safetyComponent ⟨0, 0⟩)
        = 0
    ∧ calculateThreatScore ⟨some []⟩ ⟨0, 0⟩ ⟨-30000⟩ < 0 := by
  have hm : motionComponent ⟨-30000⟩ = -2 := by
    unfold motionComponent
    rw [min_def]
    norm_num
  have ho : objectComponent ⟨some []⟩ = 0 := by simp [objectComponent]
  have hs : safetyComponent ⟨0, 0⟩ = 0 := by
    unfold safetyComponent
    norm_num
  refine ⟨?_, ?_, ?_⟩
  · rw [calculateThreatScore_eq, hm, ho, hs, min_def]
    norm_num
  · rw [hm, ho, hs]
    unfold clamp01
    rw [min_def, max_def]
    norm_num
  · rw [calculateThreatScore_eq, hm, ho, hs, min_def]
    norm_num

/-- C1 (amended): whenever the motion area and every detected object's
confidence are non-negative, the fused score equals
`clamp(motion_component + object_component + safety_component, 0, 1)` and
lies in `[0, 1]`.  (Unconditionally the code only computes
`min(sum, 1)`, with no lower clamp.) -/
theorem threatScore_clamp_of_nonneg (o : ObjectDetection) (s : SafetyCheck) (m : MotionData)
    (hA : 0 ≤ m.area) (hC : ∀ obj ∈ o.objects.getD [], 0 ≤ obj.confidence) :
    calculateThreatScore o s m
      = clamp01 (motionComponent m + objectComponent o + safetyComponent s)
    ∧ 0 ≤ calculateThreatScore o s m ∧ calculateThreatScore o s m ≤ 1 := by
  have hsum : 0 ≤ motionComponent m + objectComponent o + safetyComponent s :=
    add_nonneg (add_nonneg (motionComponent_nonneg m hA) (objectComponent_nonneg o hC))
      (safetyComponent_nonneg s)
  have hmin : 0 ≤ min (motionComponent m + objectComponent o + safetyComponent s) 1 :=
    le_min hsum (by norm_num)
  refine ⟨?_, ?_, ?_⟩
  · rw [calculateThreatScore_eq]
    unfold clamp01
    exact (max_eq_right hmin).symm
  · rw [calculateThreatScore_eq]
    exact hmin
  · rw [calculateThreatScore_eq]
    exact min_le_right _ _

/-- C1 witness: a concrete run with `area = 15000` and one `person` at
confidence `0.5`. -/
theorem threatScore_clamp_of_nonneg_witness :
    0 ≤ (MotionData.mk 15000).area
    ∧ (calculateThreatScore ⟨some [⟨some "person", 1/2⟩]⟩ ⟨0, 0⟩ ⟨15000⟩
          = clamp01 (motionComponent ⟨15000⟩ + objectComponent ⟨some [⟨some "person", 1/2⟩]⟩
              + safetyComponent ⟨0, 0⟩)
        ∧ 0 ≤ calculateThreatScore ⟨some [⟨some "person", 1/2⟩]⟩ ⟨0, 0⟩ ⟨15000⟩
        ∧ calculateThreatScore ⟨some [⟨some "person", 1/2⟩]⟩ ⟨0, 0⟩ ⟨15000⟩ ≤ 1) := by
  constructor
  · norm_num
  · exact threatScore_clamp_of_nonneg _ _ _ (by norm_num)
      (by
        intro obj hobj
        simp only [Option.getD_some, List.mem_singleton] at hobj
        subst hobj
        norm_num)

/-- C2: the threat scorer is a pure function — identical
`(motion, classification)` inputs always yield the identical score, with no
dependence on hidden state (the embedding of `calculateThreatScore` is a
function of its three arguments alone). -/
theorem calculateThreatScore_deterministic (o o' : ObjectDetection) (s s' : SafetyCheck)
    (m m' : MotionData) (ho : o = o') (hs : s = s') (hm : m = m') :
    calculateThreatScore o s m = calculateThreatScore o' s' m' := by
  subst ho
  subst hs
  subst hm
  rfl

/-- C2 witness: the determinism theorem applied at a concrete input. -/
theorem calculateThreatScore_deterministic_witness :
    calculateThreatScore ⟨some [⟨some "gun", 1⟩]⟩ ⟨7/10, 0⟩ ⟨20000⟩
      = calculateThreatScore ⟨some [⟨some "gun", 1⟩]⟩ ⟨7/10, 0⟩ ⟨20000⟩ :=
  calculateThreatScore_deterministic _ _ _ _ _ _ rfl rfl rfl

/-- C3: for `area = 20000`, a single `"weapon"` detection at confidence
`0.9` and zero safety sub-scores, the fused score equals
`min(20000/15000, 0.4) + 0.4 * 0.9 = 0.76`. -/
theorem weapon_frame_score :
    calculateThreatScore ⟨some [⟨some "weapon", 9/10⟩]⟩ ⟨0, 0⟩ ⟨20000⟩
      = min ((20000 : ℚ) / 15000) (2/5) + (2/5) * (9/10)
    ∧ calculateThreatScore ⟨some [⟨some "weapon", 9/10⟩]⟩ ⟨0, 0⟩ ⟨20000⟩ = 19/25 := by
  have h : calculateThreatScore ⟨some [⟨some "weapon", 9/10⟩]⟩ ⟨0, 0⟩ ⟨20000⟩ = 19/25 := by
    rw [calculateThreatScore_eq]
    simp [objectComponent, objectContribution, suspiciousObjects, jsToLowerCase,
      motionComponent, safetyComponent]
    rw [min_def, min_def]
    norm_num
  refine ⟨?_, h⟩
  rw [h, min_def]
  norm_num

/-- C4: `safety.violence = 0.7` with everything else zero yields exactly
`0.3`; in general the fused score is the capped sum of the motion and object
components plus step contributions `+0.3` when `violence > 0.6` and `+0.2`
when `weapons > 0.5`. -/
theorem safety_step_contribution (o : ObjectDetection) (s : SafetyCheck) (m : MotionData) :
    calculateThreatScore ⟨some []⟩ ⟨7/10, 0⟩ ⟨0⟩ = 3/10
    ∧ calculateThreatScore o s m
        = min (motionComponent m + objectComponent o
            + ((if s.violence > 3/5 then (3/10 : ℚ) else 0)
                + (if s.weapons > 1/2 then (1/5 : ℚ) else 0))) 1 := by
  constructor
  · rw [calculateThreatScore_eq]
    simp [objectComponent, motionComponent, safetyComponent]
    rw [min_def, min_def]
    norm_num
  · rw [calculateThreatScore_eq]
    rfl

/-- C5: the object component is the sum of `label_weight(label) * confidence`
over the detected objects (unknown labels weigh zero), and a classification
carrying only unknown labels leaves the fused score equal to the motion
component plus the safety component alone. -/
theorem unknown_labels_contribute_zero (o : ObjectDetection) (s : SafetyCheck) (m : MotionData)
    (h : ∀ obj ∈ o.objects.getD [], ∀ l, obj.label = some l →
        suspiciousObjects (jsToLowerCase l) = none) :
    (∀ d : ObjectDetection, objectComponent d
        = ((d.objects.getD []).map (fun obj => labelWeight obj.label * obj.confidence)).sum)
    ∧ calculateThreatScore o s m = motionComponent m + safetyComponent s := by
  constructor
  · intro d
    unfold objectComponent
    cases hd : d.objects with
    | none => simp
    | some objs =>
        simp only [Option.getD_some]
        congr 1
        apply List.map_congr_left
        intro obj _
        exact objectContribution_eq_weight obj
  · have hzero : objectComponent o = 0 := by
      cases ho : o.objects with
      | none => simp [objectComponent, ho]
      | some objs =>
          have h' : ∀ obj ∈ objs, objectContribution obj = 0 := by
            intro obj hobj
            cases hl : obj.label with
            | none => simp [objectContribution, hl]
            | some l =>
                have hn := h obj (by simpa [ho] using hobj) l hl
                simp [objectContribution, hl, hn]
          simp only [objectComponent, ho]
          apply List.sum_eq_zero
          intro x hx
          rw [List.mem_map] at hx
          obtain ⟨obj, hobj, rfl⟩ := hx
          exact h' obj hobj
    rw [calculateThreatScore_eq, hzero]
    have hle : motionComponent m + 0 + safetyComponent s ≤ 1 := by
      have h1 := motionComponent_le_cap m
      have h2 := safetyComponent_le_half s
      linarith
    rw [min_eq_left hle]
    ring

/-- C5 witness: a classification seeing only a `"car"` and an unlabeled
object contributes nothing to the score. -/
theorem unknown_labels_contribute_zero_witness :
    calculateThreatScore ⟨some [⟨some "car", 9/10⟩, ⟨none, 1⟩]⟩ ⟨7/10, 0⟩ ⟨15000⟩
      = motionComponent ⟨15000⟩ + safetyComponent ⟨7/10, 0⟩ := by
  refine (unknown_labels_contribute_zero ⟨some [⟨some "car", 9/10⟩, ⟨none, 1⟩]⟩ ⟨7/10, 0⟩
      ⟨15000⟩ ?_).2
  intro obj hobj l hl
  simp only [Option.getD_some, List.mem_cons, List.not_mem_nil, or_false] at hobj
  rcases hobj with h1 | h1
  · subst h1
    cases hl
    decide
  · subst h1
    cases hl

/-- C6: on successful classification the detection endpoint reports the
frame suspicious exactly when the fused score strictly exceeds `0.5`; a
score equal to `0.5` (violence step `+0.3` plus weapons step `+0.2`) is not
reported suspicious. -/
theorem suspicious_iff_gt_half (o : ObjectDetection) (s : SafetyCheck) (m : MotionData) :
    (workerFetch ⟨.POST, true, true, .ok m, .ok o, .ok s⟩).suspicious
        = some (decide (calculateThreatScore o s m > 1/2))
    ∧ (workerFetch ⟨.POST, true, true, .ok ⟨0⟩, .ok ⟨some []⟩, .ok ⟨7/10, 3/5⟩⟩).threat_score
        = some (1/2)
    ∧ (workerFetch ⟨.POST, true, true, .ok ⟨0⟩, .ok ⟨some []⟩, .ok ⟨7/10, 3/5⟩⟩).suspicious
        = some false := by
  have hscore : calculateThreatScore ⟨some []⟩ ⟨7/10, 3/5⟩ ⟨0⟩ = 1/2 := by
    rw [calculateThreatScore_eq]
    simp [objectComponent, motionComponent, safetyComponent]
    rw [min_def, min_def]
    norm_num
  refine ⟨rfl, ?_, ?_⟩
  · simp [workerFetch, promiseAll2, hscore]
  · simp [workerFetch, promiseAll2, hscore]

/-- C7 counterexample: when the object classifier rejects, the endpoint does
not fall back to a motion-only score — the `catch` block answers status 500
with no `threat_score` at all. -/
theorem classification_failure_no_score :
    (workerFetch ⟨.POST, true, true, .ok ⟨20000⟩, .error "timeout", .ok ⟨0, 0⟩⟩).status = 500
    ∧ (workerFetch ⟨.POST, true, true, .ok ⟨20000⟩, .error "timeout",
        .ok ⟨0, 0⟩⟩).threat_score = none
    ∧ (workerFetch ⟨.POST, true, true, .ok ⟨20000⟩, .error "timeout",
        .ok ⟨0, 0⟩⟩).threat_score ≠ some (motionComponent ⟨20000⟩) := by
  refine ⟨rfl, rfl, ?_⟩
  simp [workerFetch, promiseAll2, errorResponse]

/-- C7 (amended): a failing or timed-out classification call is caught by
the handler, which answers a well-formed 500 JSON error response with
`suspicious = false` and no threat score — the request errors out instead of
degrading to a motion-only score. -/
theorem classification_failure_error_response (m : MotionData) (o : ObjectDetection)
    (s : SafetyCheck) (e : String) :
    workerFetch ⟨.POST, true, true, .ok m, .error e, .ok s⟩ = errorResponse e
    ∧ workerFetch ⟨.POST, true, true, .ok m, .ok o, .error e⟩ = errorResponse e
    ∧ (errorResponse e).status = 500
    ∧ (errorResponse e).suspicious = some false
    ∧ (errorResponse e).threat_score = none :=
  ⟨rfl, rfl, rfl, rfl, rfl⟩

/-- C8: the modelled metadata-store upsert is idempotent in the incident id —
re-submitting the same id with the same data leaves the database unchanged,
and the id is stored exactly as one logical record (it is present after the
upsert, and the second submission creates nothing new). -/
theorem upsertIncident_idempotent (db : List (String × IncidentMeta)) (id : String)
    (meta : IncidentMeta) :
    upsertIncident (upsertIncident db id meta) id meta = upsertIncident db id meta
    ∧ (upsertIncident db id meta).any (fun e => e.1 = id) = true := by
  have hpres : ∀ l : List (String × IncidentMeta),
      (l.map (fun e => if e.1 = id then (id, meta) else e)).any (fun e => e.1 = id)
        = l.any (fun e => e.1 = id) := by
    intro l
    induction l with
    | nil => rfl
    | cons x xs ih => by_cases hx : x.1 = id <;> simp [hx, ih]
  have hff : ((fun e : String × IncidentMeta => if e.1 = id then (id, meta) else e) ∘
        (fun e => if e.1 = id then (id, meta) else e))
      = fun e => if e.1 = id then (id, meta) else e := by
    funext e
    by_cases he : e.1 = id <;> simp [Function.comp, he]
  constructor
  · by_cases hdb : db.any (fun e => e.1 = id) = true
    · have h1 : upsertIncident db id meta
          = db.map (fun e => if e.1 = id then (id, meta) else e) := by
        simp [upsertIncident, hdb]
      rw [h1]
      unfold upsertIncident
      rw [if_pos (by rw [hpres]; exact hdb)]
      rw [List.map_map, hff]
    · have hnone : ∀ e ∈ db, ¬(e.1 = id) := by
        intro e he
        simp only [List.any_eq_true, not_exists, not_and] at hdb
        push_neg at hdb
        simpa using hdb e he
      have h1 : upsertIncident db id meta = db ++ [(id, meta)] := by
        simp [upsertIncident, hdb]
      rw [h1]
      unfold upsertIncident
      rw [if_pos (by simp)]
      rw [List.map_append]
      have h2 : db.map (fun e => if e.1 = id then (id, meta) else e) = db := by
        conv_rhs => rw [← List.map_id db]
        apply List.map_congr_left
        intro e he
        simp [hnone e he]
      rw [h2]
      simp
  · by_cases hdb : db.any (fun e => e.1 = id) = true
    · simp only [upsertIncident, if_pos hdb]
      rw [hpres]
      exact hdb
    · simp [upsertIncident, hdb]

/-- C9: on `POST /get-presigned-url`, a missing body or falsy `incidentId`
is answered with 400; otherwise the worker answers 200 with
`key = "incidents/" ++ incidentId ++ ".mp4"` and an `uploadUrl` presigned on
the `watchdog-incident-reports` bucket for that key, expiring after 600
seconds. -/
theorem presign_endpoint_spec (b : PresignBody) (id : String) :
    (handlePresign .POST "/get-presigned-url" none).status = 400
    ∧ (jsFalsyStr b.incidentId = true →
        (handlePresign .POST "/get-presigned-url" (some b)).status = 400)
    ∧ (b.incidentId = some id → id ≠ "" →
        handlePresign .POST "/get-presigned-url" (some b)
          = { status := 200,
              uploadUrl := some { bucket := "watchdog-incident-reports",
                                  key := "incidents/" ++ id ++ ".mp4", expiresIn := 600 },
              key := some ("incidents/" ++ id ++ ".mp4"), text := none }) := by
  refine ⟨rfl, ?_, ?_⟩
  · intro hf
    simp [handlePresign, hf]
  · intro hid hne
    have hf : jsFalsyStr (some id) = false := by
      simp only [jsFalsyStr, decide_eq_false_iff_not]
      exact hne
    simp [handlePresign, hf, hid, getSignedUrl]

/-- C9 witness: a present incident id is answered 200 with the expected key
and expiry; an absent one is answered 400. -/
theorem presign_endpoint_spec_witness :
    handlePresign .POST "/get-presigned-url" (some ⟨some "inc1"⟩)
      = { status := 200,
          uploadUrl := some ⟨"watchdog-incident-reports", "incidents/inc1.mp4", 600⟩,
          key := some "incidents/inc1.mp4", text := none }
    ∧ (handlePresign .POST "/get-presigned-url" (some ⟨none⟩)).status = 400 := by
  constructor
  · exact (presign_endpoint_spec ⟨some "inc1"⟩ "inc1").2.2 rfl (by decide)
  · exact (presign_endpoint_spec ⟨none⟩ "x").2.1 (by decide)

/-- C10: `POST /execute-sql` with a non-empty `sql` but no `bindings` field
throws at `bindings.map` and is answered 500 by the generic handler; the 400
"SQL query is required" response arises exactly when the parsed body has a
falsy `sql` field. -/
theorem executeSql_missing_bindings_500 (db : String → List String → Except String String)
    (s : String) (hs : s ≠ "") :
    (handleExecuteSql db .POST "/execute-sql"
        (some { sql := some s, bindings := none })).status = 500
    ∧ ∀ body : Option SqlBody,
        ((handleExecuteSql db .POST "/execute-sql" body).status = 400
          ↔ ∃ b, body = some b ∧ jsFalsyStr b.sql = true) := by
  constructor
  · have hf : jsFalsyStr (some s) = false := by simp [jsFalsyStr, hs]
    simp [handleExecuteSql, hf]
  · intro body
    cases body with
    | none => simp [handleExecuteSql]
    | some b =>
        by_cases hf : jsFalsyStr b.sql = true
        · simp [handleExecuteSql, hf]
        · rw [Bool.not_eq_true] at hf
          cases hb : b.bindings with
          | none => simp [handleExecuteSql, hf, hb]
          | some bs =>
              cases hdb : db (b.sql.getD "") (bs.map fun x => x.value) with
              | ok r => simp [handleExecuteSql, hf, hb, hdb]
              | error e => simp [handleExecuteSql, hf, hb, hdb]

/-- C10 witness: a concrete `INSERT` with no bindings against a database
stub is answered 500. -/
theorem executeSql_missing_bindings_500_witness :
    (handleExecuteSql (fun _ _ => Except.ok "") .POST "/execute-sql"
        (some { sql := some "INSERT", bindings := none })).status = 500 :=
  (executeSql_missing_bindings_500 (fun _ _ => Except.ok "") "INSERT" (by decide)).1

end WatchDog
